import Mathlib

/-!
Shallow embedding of the BookMonarch backend (Flask book-generation service):
the generation-pipeline status machine, the status read endpoint, the
outline/metadata/chapter validators and the word-count computation, translated
from `src/backend`.
-/

namespace BookMonarch

/-! ### Word count (models/book_models.py, Chapter._calculate_word_count and
utils/validation.py, BookValidator.validate_chapter_content) -/

/-- The character class of the regex `[#*_`\[\]()]` used to strip markdown
formatting before counting words. -/
def isMarkdownPunct (c : Char) : Bool :=
  c = '#' || c = '*' || c = '_' || c = '`' || c = '[' || c = ']' || c = '(' || c = ')'

/-- The substitution `re.sub(r'\n+', ' ', text)`: each maximal run of newline characters is
replaced by a single space.  The `inRun` flag records whether the previous
character was a newline already replaced. -/
def collapseNewlinesAux : Bool → List Char → List Char
  | _, [] => []
  | inRun, c :: cs =>
    if c = '\n' then
      if inRun then collapseNewlinesAux true cs
      else ' ' :: collapseNewlinesAux true cs
    else c :: collapseNewlinesAux false cs

def collapseNewlines (l : List Char) : List Char :=
  collapseNewlinesAux false l

/-- Python `str.strip()` on a token, used for the `word.strip()` truthiness
check in the word-count list comprehension. -/
def pyStrip (l : List Char) : List Char :=
  ((l.dropWhile Char.isWhitespace).reverse.dropWhile Char.isWhitespace).reverse

/-- Python `text.split()` followed by the `if word.strip()` filter: split on
whitespace, keep tokens whose strip is non-empty. -/
def pyWordTokens (l : List Char) : List (List Char) :=
  ((l.splitOnP Char.isWhitespace).filter (fun w => w ≠ [])).filter
    (fun w => pyStrip w ≠ [])

/-- Embeds `Chapter._calculate_word_count` (models/book_models.py lines 104-113):
strip the markdown characters, collapse newline runs to single spaces, split
on whitespace and count non-empty tokens.  Returns 0 for empty content. -/
def calculateWordCount (content : String) : Nat :=
  if content = "" then 0
  else
    let text := collapseNewlines (content.data.filter (fun c => !(isMarkdownPunct c)))
    (pyWordTokens text).length

/-- The same word-count computation as inlined in
`BookValidator.validate_chapter_content` (utils/validation.py lines 153-156);
there the empty string is short-circuited earlier, so no guard appears. -/
def validationWordCount (content : String) : Nat :=
  let text := collapseNewlines (content.data.filter (fun c => !(isMarkdownPunct c)))
  (pyWordTokens text).length

/-! ### Outline JSON validation (utils/validation.py,
BookValidator.validate_outline_json).  Chapter dictionaries are modelled with
the three fields the validator inspects; a missing key is `none`, and the
Python truthiness test `not chapter[field]` is `= 0` for the integer field and
`= ""` for the string fields. -/

structure ChapterJson where
  number : Option Int
  title : Option String
  summary : Option String

structure OutlineJson where
  chapters : Option (List ChapterJson)

/-- Errors contributed by one chapter dictionary: the three required-field
checks followed by the positional numbering check `chapter['number'] != i+1`
(utils/validation.py lines 94-103). -/
def chapterJsonErrors (i : Nat) (ch : ChapterJson) : List String :=
  (match ch.number with
   | none => ["Chapter " ++ toString (i + 1) ++ " missing required field: number"]
   | some n => if n = 0 then ["Chapter " ++ toString (i + 1) ++ " has empty number"] else [])
  ++ (match ch.title with
   | none => ["Chapter " ++ toString (i + 1) ++ " missing required field: title"]
   | some t => if t = "" then ["Chapter " ++ toString (i + 1) ++ " has empty title"] else [])
  ++ (match ch.summary with
   | none => ["Chapter " ++ toString (i + 1) ++ " missing required field: summary"]
   | some s => if s = "" then ["Chapter " ++ toString (i + 1) ++ " has empty summary"] else [])
  ++ (match ch.number with
   | none => []
   | some n =>
     if n ≠ (i : Int) + 1 then
       ["Chapter " ++ toString (i + 1) ++ " has incorrect number: " ++ toString n]
     else [])

/-- Embeds `BookValidator.validate_outline_json` (utils/validation.py lines 73-105). -/
def validate_outline_json (data : OutlineJson) : List String :=
  match data.chapters with
  | none => ["Missing 'chapters' key in outline JSON"]
  | some chapters =>
    (if chapters.length ≠ 15 then
       ["Expected exactly 15 chapters, found " ++ toString chapters.length]
     else [])
    ++ (chapters.enum.map (fun p => chapterJsonErrors p.1 p.2)).flatten

/-! ### Metadata validation (models/book_models.py, BookMetadata.validate). -/

def pyStripS (s : String) : String := ⟨pyStrip s.data⟩

structure BookMetadata where
  sales_description : String
  reading_age_range : String
  bisac_categories : List String
  keywords : List String
  back_cover_description : String
  trim_size : String := "5x8in"
  bleed_settings : String := "No Bleed"

/-- Embeds `BookMetadata.validate` (models/book_models.py lines 244-276).  Python
`len` on a string counts code points, matching `String.length`. -/
def BookMetadata.validate (m : BookMetadata) : List String :=
  (if m.sales_description = "" ∨ pyStripS m.sales_description = "" then
     ["Sales description cannot be empty"]
   else if m.sales_description.length > 4000 then
     ["Sales description cannot exceed 4000 characters"]
   else [])
  ++ (if m.reading_age_range = "" ∨ pyStripS m.reading_age_range = "" then
     ["Reading age range cannot be empty"]
   else [])
  ++ (if m.bisac_categories = [] then
     ["At least one BISAC category is required"]
   else if m.bisac_categories.length ≠ 3 then
     ["Exactly 3 BISAC categories required, found " ++ toString m.bisac_categories.length]
   else [])
  ++ (if m.keywords = [] then
     ["Keywords are required"]
   else if m.keywords.length ≠ 7 then
     ["Exactly 7 keywords required, found " ++ toString m.keywords.length]
   else [])
  ++ (m.keywords.filterMap (fun k =>
      if k.length > 50 then
        some ("Keyword too long: '" ++ k ++ "' (max 50 characters)")
      else none))
  ++ (if m.back_cover_description = "" ∨ pyStripS m.back_cover_description = "" then
     ["Back cover description cannot be empty"]
   else if m.back_cover_description.length > 6000 then
     ["Back cover description cannot exceed 6000 characters"]
   else [])

/-! ### Generation status records (api/book_generation.py).
The in-memory `generation_status[book_id]` dictionary entry and the durable
`books` row, together with the writes the pipeline performs on them.
Timestamps (`created_at`/`updated_at`) are real-time values no claim inspects
and are omitted. -/

/-- Python truthiness of a nullable string (`if user_id:` accepts neither
`None` nor the empty string). -/
def truthy : Option String → Bool
  | none => false
  | some s => s ≠ ""

structure FilesRecord where
  pdf_url : Option String
  epub_url : Option String
  metadata_url : Option String
deriving DecidableEq

/-- One entry of the `generation_status` map
(api/book_generation.py lines 135-153). -/
structure StatusEntry where
  book_id : String
  user_id : Option String
  anonymous_user_id : Option String
  title : String
  author : String
  book_type : String
  status : String
  progress : Int
  current_step : String
  error : Option String
  files : FilesRecord

/-- The record installed by `generate_book` before the background thread
starts. -/
def initialStatus (book_id : String) (user_id anonymous_user_id : Option String)
    (title author book_type : String) : StatusEntry :=
  { book_id, user_id, anonymous_user_id, title, author, book_type
    status := "pending"
    progress := 0
    current_step := "Starting book generation..."
    error := none
    files := ⟨none, none, none⟩ }

/-- The three shapes of in-memory write `_generate_book_async` performs:
the stage-boundary `_update_generation_status` writes, the completion write
(lines 394-408) and the failure write (lines 464-473). -/
inductive PipelineEvent where
  | update (status : String) (progress : Int) (current_step : String)
  | complete (pdf_url epub_url metadata_url : String)
  | fail (message : String)

def applyEvent (st : StatusEntry) : PipelineEvent → StatusEntry
  | .update status progress current_step => { st with status, progress, current_step }
  | .complete p e m =>
      { st with
        status := "completed"
        progress := 100
        current_step := "Book generation completed successfully!"
        files := ⟨some p, some e, some m⟩ }
  | .fail msg =>
      { st with
        status := "failed"
        progress := 0
        current_step := "Book generation failed"
        error := some msg }

/-- The full event sequence of a successful `_generate_book_async` run
(api/book_generation.py lines 356-408), in program order. -/
def successEvents (pdf_url epub_url metadata_url : String) : List PipelineEvent :=
  [ .update "outline_generated" 10 "Generating book outline...",
    .update "outline_generated" 20 "Outline generated successfully",
    .update "generating_content" 25 "Generating chapters (this may take several minutes)...",
    .update "generating_content" 60 "All chapters generated successfully",
    .update "generating_content" 65 "Creating PDF file...",
    .update "generating_content" 75 "PDF created successfully",
    .update "generating_content" 80 "Creating EPUB file...",
    .update "generating_content" 85 "EPUB created successfully",
    .update "generating_content" 90 "Generating marketing metadata...",
    .complete pdf_url epub_url metadata_url ]

/-- The in-memory record after the first `k` writes of a run whose artifact
URLs are the given strings; an exception raised after those `k` writes
appends the failure write (`failAfter`). -/
def stateAfter (book_id : String) (user_id anonymous_user_id : Option String)
    (title author book_type : String) (pdf epub meta : String) (k : Nat) : StatusEntry :=
  ((successEvents pdf epub meta).take k).foldl applyEvent
    (initialStatus book_id user_id anonymous_user_id title author book_type)

/-- A run that raises after `k` successful writes ends with the failure
write of the top-level `except` block. -/
def failAfter (book_id : String) (user_id anonymous_user_id : Option String)
    (title author book_type : String) (pdf epub meta : String) (k : Nat)
    (msg : String) : StatusEntry :=
  applyEvent (stateAfter book_id user_id anonymous_user_id title author book_type pdf epub meta k)
    (.fail msg)

/-- A row of the durable `books` table, restricted to the columns this module
reads and writes. -/
structure DbBook where
  id : String
  user_id : Option String
  anonymous_user_id : Option String
  title : String
  author_name : String
  genre : String
  status : String
  progress : Option Int
  error_message : Option String
  content_url : Option String
  epub_url : Option String
  metadata_url : Option String

/-- The row `generate_book` creates (api/book_generation.py lines 157-169):
nullable columns that the insert does not mention are NULL. -/
def initialDbBook (id : String) (user_id anonymous_user_id : Option String)
    (title author_name genre : String) : DbBook :=
  { id, user_id, anonymous_user_id, title, author_name, genre
    status := "pending"
    progress := some 0
    error_message := none
    content_url := none
    epub_url := none
    metadata_url := none }

/-- The durable write of the failure path (api/book_generation.py
lines 477-501): every branch sets `status='failed', progress=0,
error_message=str(e)`. -/
def dbFailUpdate (b : DbBook) (msg : String) : DbBook :=
  { b with status := "failed", progress := some 0, error_message := some msg }

/-! ### The status read endpoint (api/book_generation.py, get_book_status). -/

/-- The response fields a claim inspects: `status`, `progress`, the optional
`error` field and the optional `files` object. -/
structure StatusBody where
  status : String
  progress : Int
  error : Option String
  files : Option FilesRecord

inductive StatusResponse where
  | anonymousIdRequired400
  | accessDenied403
  | okMem (record : StatusEntry) (body : StatusBody)
  | okDb (record : DbBook) (body : StatusBody)
  | notFound404

/-- The response body built from an in-memory entry (lines 262-282): `error`
is included only when truthy, `files` only when status is completed. -/
def memBody (st : StatusEntry) : StatusBody :=
  { status := st.status
    progress := st.progress
    error := if truthy st.error then st.error else none
    files := if st.status = "completed" then some st.files else none }

/-- The expression `book_data['progress'] or 100` (line 298): Python `or` replaces both NULL
and 0 with 100. -/
def dbServedProgress : Option Int → Int
  | none => 100
  | some p => if p = 0 then 100 else p

/-- The response body built from a durable row (lines 294-315). -/
def dbBody (b : DbBook) : StatusBody :=
  { status := b.status
    progress := dbServedProgress b.progress
    error := if truthy b.error_message then b.error_message else none
    files := if b.status = "completed" then
        some ⟨b.content_url, b.epub_url, b.metadata_url⟩
      else none }

/-- Embeds `DatabaseService.get_book_by_id_and_owner` (lib/database_service.py
lines 398-426), specialised to the at-most-one row matching `book_id`:
authenticated callers filter on `user_id`, anonymous callers on
`anonymous_user_id` with `user_id IS NULL`; with neither it raises. -/
def get_book_by_id_and_owner (book : Option DbBook)
    (user_id anonymous_user_id : Option String) : Except String (Option DbBook) :=
  if truthy user_id then
    .ok (match book with
      | some b => if b.user_id = user_id then some b else none
      | none => none)
  else if truthy anonymous_user_id then
    .ok (match book with
      | some b =>
        if b.anonymous_user_id = anonymous_user_id ∧ b.user_id = none then some b
        else none
      | none => none)
  else .error "Either user_id or anonymous_user_id must be provided"

/-- Embeds `get_book_status` (api/book_generation.py lines 219-327).  `mem` is the
`generation_status` entry for the requested id (if any), `dbBook` the durable
row for it (if any); `dbError` models a `DatabaseError` from the fallback
query, which the handler catches and turns into the 404 path. -/
def get_book_status (mem : Option StatusEntry) (dbBook : Option DbBook)
    (dbError : Bool) (user_id anon_query : Option String) : StatusResponse :=
  let anonymous_user_id := if truthy user_id then none else anon_query
  if ¬ truthy user_id ∧ ¬ truthy anonymous_user_id then .anonymousIdRequired400
  else
    match mem with
    | some st =>
      if truthy user_id ∧ st.user_id ≠ user_id then .accessDenied403
      else if truthy anonymous_user_id ∧ st.anonymous_user_id ≠ anonymous_user_id then
        .accessDenied403
      else .okMem st (memBody st)
    | none =>
      if dbError then .notFound404
      else
        match get_book_by_id_and_owner dbBook user_id anonymous_user_id with
        | .error _ => .notFound404
        | .ok none => .notFound404
        | .ok (some b) => .okDb b (dbBody b)

/-! ### The generation start endpoint (api/book_generation.py, generate_book).
The validation decorator, the profile service's limit check and the database
insert are external collaborators, modelled by outcome parameters; the model
records which pieces of pipeline state the handler has created when it
answers. -/

inductive ValidationOutcome where
  | valid (title author book_type : String)
  | invalid (code : String)

/-- The fields of `profile_service.check_generation_limit`'s result that the
handler reads. -/
structure LimitCheck where
  allowed : Bool
  user_type : String
  subscription_status : String
  limit_value : Nat

inductive LimitOutcome where
  | ok (check : LimitCheck)
  | profileError (msg : String)

/-- Which pipeline state exists when the handler returns: the in-memory
`generation_status` entry and the durable `books` row. -/
structure GenSideEffects where
  memCreated : Bool
  dbCreated : Bool
deriving DecidableEq

inductive GenerateResponse where
  | validationError400 (code : String)
  | anonymousIdRequired400
  | limitExceeded429 (code : String)
  | limitCheckFailed500
  | databaseError500
  | accepted202

/-- The error code selection of the 429 branch
(api/book_generation.py lines 94-105). -/
def limitCode (check : LimitCheck) : String :=
  if check.user_type = "anonymous" then "ANONYMOUS_LIMIT_EXCEEDED"
  else if check.subscription_status = "free" then "FREE_LIMIT_EXCEEDED"
  else if check.subscription_status = "pro" then "DAILY_LIMIT_EXCEEDED"
  else "GENERATION_LIMIT_EXCEEDED"

/-- Embeds `generate_book` (api/book_generation.py lines 43-214).  The
`@validate_book_generation_request` decorator runs before the handler body
and answers 400 on a `ValidationError` (lib/validation.py lines 488-526);
then the anonymous-id requirement, then the limit check, and only after all
of them the `generation_status` entry and the database row are created. -/
def generate_book (validation : ValidationOutcome) (user_id : Option String)
    (anon_body : Option String) (limit : LimitOutcome) (dbCreateOk : Bool) :
    GenerateResponse × GenSideEffects :=
  match validation with
  | .invalid _ => (.validationError400 "VALIDATION_ERROR", ⟨false, false⟩)
  | .valid _ _ _ =>
    let anonymous_user_id := if truthy user_id then none else anon_body
    if ¬ truthy user_id ∧ ¬ truthy anonymous_user_id then
      (.anonymousIdRequired400, ⟨false, false⟩)
    else
      let proceed : GenerateResponse × GenSideEffects :=
        if dbCreateOk then (.accepted202, ⟨true, true⟩)
        else (.databaseError500, ⟨true, false⟩)
      match limit with
      | .ok check =>
        if ¬ check.allowed then (.limitExceeded429 (limitCode check), ⟨false, false⟩)
        else proceed
      | .profileError _ =>
        if ¬ truthy user_id then (.limitCheckFailed500, ⟨false, false⟩)
        else proceed

/-! ### The file-URL endpoint (api/file_management.py, get_book_files). -/

/-- The dictionary returned by `storage_service.get_book_file_urls`. -/
structure StoredFileUrls where
  pdf : Option String
  epub : Option String
  metadata : Option String

inductive FilesResponse where
  | invalidExpiration400
  | filesNotFound404
  | ok (expires_in : Int) (pdf_url epub_url metadata_url : Option String)

/-- Embeds `get_book_files` (api/file_management.py lines 24-90).  The returned
`Bool` records whether `storage_service.get_book_file_urls` (signed-URL
generation) ran.  `if not any(file_urls.values())` is the Python-truthiness
emptiness test on the three values. -/
def get_book_files (expires_in : Int) (stored : StoredFileUrls) :
    FilesResponse × Bool :=
  if expires_in < 60 ∨ expires_in > 86400 then (.invalidExpiration400, false)
  else
    if ¬ truthy stored.pdf ∧ ¬ truthy stored.epub ∧ ¬ truthy stored.metadata then
      (.filesNotFound404, true)
    else (.ok expires_in stored.pdf stored.epub stored.metadata, true)

/-! ### Chapter generation (services/chapter_generator_service.py,
ChapterGeneratorService.generate_all_chapters).  The per-chapter call
`generate_single_chapter(outline_dict, i)` either returns a chapter or
raises; it is modelled by `gen`. -/

structure ChapterSummary where
  number : Int
  title : String
  summary : String
deriving DecidableEq

structure BookOutline where
  title : String
  chapters : List ChapterSummary

structure Chapter where
  number : Int
  title : String
  content : String
  word_count : Nat

/-- The `Chapter` dataclass constructor: `__post_init__` derives
`word_count` from the content (models/book_models.py lines 99-102). -/
def mkChapter (number : Int) (title content : String) : Chapter :=
  { number, title, content, word_count := calculateWordCount content }

/-- The `failed_chapters` list accumulated by the loop: `(i+1, message)` for
every index whose generation raised. -/
def failedChapters (gen : Nat → Except String Chapter) (n : Nat) :
    List (Nat × String) :=
  (List.range n).filterMap (fun i =>
    match gen i with
    | .error e => some (i + 1, e)
    | .ok _ => none)

/-- The `chapters` list accumulated by the loop: every successfully generated
chapter, in index order. -/
def successfulChapters (gen : Nat → Except String Chapter) (n : Nat) :
    List Chapter :=
  (List.range n).filterMap (fun i => (gen i).toOption)

/-- The message of the single `ChapterGenerationError` raised after the loop
(services/chapter_generator_service.py lines 70-72). -/
def chapterFailureMessage (failed : List (Nat × String)) : String :=
  "Failed to generate " ++ toString failed.length ++ " chapters: " ++
    String.intercalate "; "
      (failed.map (fun p => "Chapter " ++ toString p.1 ++ ": " ++ p.2))

/-- Embeds `generate_all_chapters` (services/chapter_generator_service.py
lines 28-75).  The two guard `ValueError`s and the final
`ChapterGenerationError` are both modelled as `Except.error`. -/
def generate_all_chapters (outline : BookOutline)
    (gen : Nat → Except String Chapter) : Except String (List Chapter) :=
  if outline.chapters = [] then .error "Outline must contain chapters"
  else if outline.chapters.length ≠ 15 then
    .error ("Expected exactly 15 chapters, got " ++ toString outline.chapters.length)
  else
    let failed := failedChapters gen outline.chapters.length
    if failed ≠ [] then .error (chapterFailureMessage failed)
    else .ok (successfulChapters gen outline.chapters.length)

/-- The progress value a pipeline write stores. -/
def eventProgress : PipelineEvent → Int
  | .update _ p _ => p
  | .complete _ _ _ => 100
  | .fail _ => 0

/-- The in-memory record after `k` stage writes, followed by the failure
write when `failMsg` is present (the top-level `except` block of
`_generate_book_async`). -/
def runState (book_id : String) (uid anon : Option String)
    (t a bt pdf epub meta : String) (k : Nat) (failMsg : Option String) :
    StatusEntry :=
  match failMsg with
  | none => stateAfter book_id uid anon t a bt pdf epub meta k
  | some msg =>
      applyEvent (stateAfter book_id uid anon t a bt pdf epub meta k) (.fail msg)

/-- A concrete failed generation: the durable row of an authenticated user's
request whose pipeline raised `"boom"`. -/
def sampleFailedDbBook : DbBook :=
  dbFailUpdate (initialDbBook "b1" (some "alice") none "T" "A" "non-fiction") "boom"

/-- A concrete 15-chapter outline. -/
def sampleOutline : BookOutline :=
  { title := "T", chapters := List.replicate 15 ⟨1, "c", "s"⟩ }

/-- A per-chapter generator that always succeeds. -/
def sampleGen : Nat → Except String Chapter :=
  fun i => .ok (mkChapter ((i : Int) + 1) "c" "body")

/-! ## Theorems -/

/-- C4: the chapter word count is computed by deleting the characters
`#*_`[]()`, collapsing newline runs to single spaces and counting non-empty
whitespace-delimited tokens; on the pinned example
`"# Title\n\nThis is five words here."` it equals exactly 6, and the copy of
the computation inlined in `BookValidator.validate_chapter_content` agrees
with `Chapter._calculate_word_count` on every input. -/
theorem wordCount_strips_markdown_counts_tokens :
    calculateWordCount "# Title\n\nThis is five words here." = 6 ∧
    ∀ content : String, validationWordCount content = calculateWordCount content := by
  constructor
  · decide
  · intro content
    by_cases h : content = ""
    · subst h; decide
    · unfold calculateWordCount validationWordCount
      rw [if_neg h]

/-- C8: on the file-URL endpoint, `expires_in` strictly below 60 or strictly
above 86400 is answered with the 400 `INVALID_EXPIRATION` response and signed
URL generation never runs; every value inside `[60, 86400]` passes the check
and signed URL generation runs. -/
theorem expires_in_bounds_checked_first (expires_in : Int) (stored : StoredFileUrls) :
    ((get_book_files expires_in stored).1 = FilesResponse.invalidExpiration400 ↔
      expires_in < 60 ∨ expires_in > 86400) ∧
    ((get_book_files expires_in stored).2 = true ↔
      60 ≤ expires_in ∧ expires_in ≤ 86400) := by
  unfold get_book_files
  by_cases h : expires_in < 60 ∨ expires_in > 86400
  · rw [if_pos h]
    constructor
    · simp [h]
    · simp
      omega
  · rw [if_neg h]
    push_neg at h
    constructor
    · constructor
      · intro hr
        split at hr <;> simp_all
      · intro hr
        omega
    · simp [h]
      split <;> simp

/-- C7: a request answered 400 by the validation decorator (or the
anonymous-id requirement) or 429 by the quota check leaves no pipeline state
behind: neither the in-memory `generation_status` entry nor the durable
`books` row has been created when those responses are produced. -/
theorem rejection_before_state_creation (validation : ValidationOutcome)
    (user_id anon_body : Option String) (limit : LimitOutcome) (dbOk : Bool) :
    ((∃ c, (generate_book validation user_id anon_body limit dbOk).1 =
        GenerateResponse.validationError400 c) →
      (generate_book validation user_id anon_body limit dbOk).2 = ⟨false, false⟩) ∧
    ((generate_book validation user_id anon_body limit dbOk).1 =
        GenerateResponse.anonymousIdRequired400 →
      (generate_book validation user_id anon_body limit dbOk).2 = ⟨false, false⟩) ∧
    ((∃ c, (generate_book validation user_id anon_body limit dbOk).1 =
        GenerateResponse.limitExceeded429 c) →
      (generate_book validation user_id anon_body limit dbOk).2 = ⟨false, false⟩) := by
  unfold generate_book
  rcases validation with ⟨t, a, bt⟩ | code
  · rcases limit with ⟨check⟩ | msg <;>
      (refine ⟨?_, ?_, ?_⟩ <;> (intro h; split_ifs at h <;> simp_all <;> split_ifs <;> simp_all))
  · exact ⟨fun _ => rfl, fun h => by simp_all, fun h => by rcases h with ⟨c, h⟩; simp_all⟩

/-- C3: a successful pipeline run writes progress in exactly the order
10, 20, 25, 60, 65, 75, 80, 85, 90, 100, one write per stage boundary in
program order, so the sequence of in-memory states of a non-failed run has
non-decreasing progress. -/
theorem progress_checkpoint_sequence (book_id t a bt pdf epub meta : String)
    (uid anon : Option String) :
    (successEvents pdf epub meta).map eventProgress =
      [10, 20, 25, 60, 65, 75, 80, 85, 90, 100] ∧
    (List.range 11).map
        (fun k => (stateAfter book_id uid anon t a bt pdf epub meta k).progress) =
      [0, 10, 20, 25, 60, 65, 75, 80, 85, 90, 100] ∧
    List.Chain' (· ≤ ·) ([0, 10, 20, 25, 60, 65, 75, 80, 85, 90, 100] : List Int) := by
  refine ⟨rfl, rfl, by norm_num [List.chain'_cons]⟩

/-- C2: over every state an in-memory record reaches (any prefix of the
successful run's writes, optionally followed by the failure write),
`status = "completed"` holds exactly when all three file references are
non-null and progress is 100; the references stay null before the completion
write, and the completion write itself sets the three references, the
completed status and progress 100 simultaneously. -/
theorem completed_iff_files_present_and_100 (book_id t a bt pdf epub meta : String)
    (uid anon : Option String) (k : Nat) (hk : k ≤ 10) (failMsg : Option String) :
    ((runState book_id uid anon t a bt pdf epub meta k failMsg).status = "completed" ↔
      (runState book_id uid anon t a bt pdf epub meta k failMsg).files.pdf_url ≠ none ∧
      (runState book_id uid anon t a bt pdf epub meta k failMsg).files.epub_url ≠ none ∧
      (runState book_id uid anon t a bt pdf epub meta k failMsg).files.metadata_url ≠ none ∧
      (runState book_id uid anon t a bt pdf epub meta k failMsg).progress = 100) ∧
    (k ≤ 9 → failMsg = none →
      (runState book_id uid anon t a bt pdf epub meta k failMsg).files = ⟨none, none, none⟩) ∧
    (∀ st : StatusEntry,
      (applyEvent st (.complete pdf epub meta)).status = "completed" ∧
      (applyEvent st (.complete pdf epub meta)).progress = 100 ∧
      (applyEvent st (.complete pdf epub meta)).files = ⟨some pdf, some epub, some meta⟩) := by
  refine ⟨?_, ?_, fun st => ⟨rfl, rfl, rfl⟩⟩
  · rcases failMsg with _ | msg <;> interval_cases k <;>
      simp [runState, stateAfter, successEvents, applyEvent, initialStatus]
  · intro hk9 hnone
    subst hnone
    interval_cases k <;>
      simp [runState, stateAfter, successEvents, applyEvent, initialStatus]

/-- Witness for C2: the completed state (all ten writes, no failure) has the
three non-null file references and progress 100. -/
theorem completed_iff_files_present_and_100_witness :
    (runState "b1" (some "u") none "T" "A" "non-fiction" "p" "e" "m" 10 none).files.pdf_url ≠ none ∧
    (runState "b1" (some "u") none "T" "A" "non-fiction" "p" "e" "m" 10 none).files.epub_url ≠ none ∧
    (runState "b1" (some "u") none "T" "A" "non-fiction" "p" "e" "m" 10 none).files.metadata_url ≠ none ∧
    (runState "b1" (some "u") none "T" "A" "non-fiction" "p" "e" "m" 10 none).progress = 100 :=
  (completed_iff_files_present_and_100 "b1" "T" "A" "non-fiction" "p" "e" "m"
    (some "u") none 10 (by norm_num) none).1.mp rfl

/-- C1 counterexample: the failed record stores `status='failed'` and
`progress=0`, yet the durable-store fallback of `get_book_status` (in-memory
entry absent, the owner herself asking) serves it with `progress = 100`,
because line 298 computes `book_data['progress'] or 100` and Python `or`
treats the stored 0 as falsy.  The claim says every such read reports
progress 0. -/
theorem failed_fallback_read_reports_100 :
    sampleFailedDbBook.status = "failed" ∧
    sampleFailedDbBook.progress = some 0 ∧
    get_book_status none (some sampleFailedDbBook) false (some "alice") none =
      .okDb sampleFailedDbBook (dbBody sampleFailedDbBook) ∧
    (dbBody sampleFailedDbBook).progress = 100 ∧
    ¬ (dbBody sampleFailedDbBook).progress = 0 := by
  refine ⟨rfl, rfl, rfl, rfl, by decide⟩

/-- C1 (amended): when the pipeline raises, the failure write sets
`status='failed'`, `progress=0` and a non-null error on both the in-memory
record and the durable row, and in-memory reads (whose body is `memBody`)
report progress 0 with the error present when the message is non-empty; a
read served from the durable-store fallback (body `dbBody`), however, reports
progress 100 for such a record, because the endpoint substitutes 100 for a
stored progress of 0 or NULL. -/
theorem failed_status_zero_with_error (st : StatusEntry) (b : DbBook)
    (msg : String) (hmsg : msg ≠ "") :
    (applyEvent st (.fail msg)).status = "failed" ∧
    (applyEvent st (.fail msg)).progress = 0 ∧
    (applyEvent st (.fail msg)).error = some msg ∧
    (memBody (applyEvent st (.fail msg))).progress = 0 ∧
    (memBody (applyEvent st (.fail msg))).error = some msg ∧
    (dbFailUpdate b msg).status = "failed" ∧
    (dbFailUpdate b msg).progress = some 0 ∧
    (dbFailUpdate b msg).error_message = some msg ∧
    (dbBody (dbFailUpdate b msg)).progress = 100 ∧
    (dbBody (dbFailUpdate b msg)).error = some msg := by
  refine ⟨rfl, rfl, rfl, rfl, ?_, rfl, rfl, rfl, rfl, ?_⟩ <;>
    simp [memBody, dbBody, applyEvent, dbFailUpdate, truthy, hmsg]

/-- Witness for C1's amended theorem at a concrete failed run. -/
theorem failed_status_zero_with_error_witness :
    (memBody (applyEvent (initialStatus "b1" (some "u") none "T" "A" "non-fiction")
        (.fail "boom"))).progress = 0 ∧
    (memBody (applyEvent (initialStatus "b1" (some "u") none "T" "A" "non-fiction")
        (.fail "boom"))).error = some "boom" ∧
    (dbBody (dbFailUpdate (initialDbBook "b1" (some "u") none "T" "A" "non-fiction")
        "boom")).progress = 100 :=
  have h := failed_status_zero_with_error
    (initialStatus "b1" (some "u") none "T" "A" "non-fiction")
    (initialDbBook "b1" (some "u") none "T" "A" "non-fiction") "boom" (by decide)
  ⟨h.2.2.2.1, h.2.2.2.2.1, h.2.2.2.2.2.2.2.2.1⟩

/-- An empty `BookMetadata.validate` forces exactly 3 categories and exactly
7 keywords. -/
lemma metadata_validate_nil_counts {m : BookMetadata} (h : m.validate = []) :
    m.bisac_categories.length = 3 ∧ m.keywords.length = 7 := by
  unfold BookMetadata.validate at h
  simp only [List.append_eq_nil] at h
  obtain ⟨⟨⟨⟨⟨-, -⟩, h3⟩, h4⟩, -⟩, -⟩ := h
  constructor
  · have hc : ¬ m.bisac_categories = [] := by
      intro hc
      rw [if_pos hc] at h3
      exact absurd h3 (by simp)
    rw [if_neg hc] at h3
    by_contra h33
    rw [if_pos h33] at h3
    exact absurd h3 (by simp)
  · have hk : ¬ m.keywords = [] := by
      intro hk
      rw [if_pos hk] at h4
      exact absurd h4 (by simp)
    rw [if_neg hk] at h4
    by_contra h47
    rw [if_pos h47] at h4
    exact absurd h4 (by simp)

/-- C6: metadata validation accepts only a value with exactly 3 BISAC
categories and exactly 7 keywords, and any other count of either (0, 2, 8, …)
produces a validation error. -/
theorem metadata_exactly_3_categories_7_keywords (m : BookMetadata) :
    (m.validate = [] → m.bisac_categories.length = 3 ∧ m.keywords.length = 7) ∧
    (m.bisac_categories.length ≠ 3 → m.validate ≠ []) ∧
    (m.keywords.length ≠ 7 → m.validate ≠ []) :=
  ⟨fun h => metadata_validate_nil_counts h,
   fun hne h => hne (metadata_validate_nil_counts h).1,
   fun hne h => hne (metadata_validate_nil_counts h).2⟩

/-- An empty per-chapter error list forces the chapter's `number` field to be
present and equal to its 1-based position. -/
lemma chapterJsonErrors_nil_number {i : Nat} {ch : ChapterJson}
    (h : chapterJsonErrors i ch = []) : ch.number = some ((i : Int) + 1) := by
  unfold chapterJsonErrors at h
  rcases hn : ch.number with _ | n
  · rw [hn] at h
    simp at h
  · rw [hn] at h
    simp only [List.append_eq_nil] at h
    obtain ⟨⟨⟨-, -⟩, -⟩, h4⟩ := h
    have heq : ¬ n ≠ (i : Int) + 1 := by
      intro hne
      rw [if_pos hne] at h4
      exact absurd h4 (by simp)
    rw [not_not.mp heq]

/-- An empty `validate_outline_json` result forces exactly 15 chapters, each
carrying the number equal to its 1-based position. -/
lemma validate_outline_json_nil {chapters : List ChapterJson}
    (h : validate_outline_json ⟨some chapters⟩ = []) :
    chapters.length = 15 ∧
    ∀ i (hi : i < chapters.length),
      (chapters.get ⟨i, hi⟩).number = some ((i : Int) + 1) := by
  unfold validate_outline_json at h
  simp only [List.append_eq_nil] at h
  obtain ⟨h1, h2⟩ := h
  have hlen : chapters.length = 15 := by
    by_contra h15
    rw [if_pos h15] at h1
    exact absurd h1 (by simp)
  refine ⟨hlen, fun i hi => ?_⟩
  rw [List.flatten_eq_nil_iff] at h2
  have hmem : chapterJsonErrors i (chapters.get ⟨i, hi⟩) ∈
      chapters.enum.map (fun p => chapterJsonErrors p.1 p.2) := by
    have hi' : i < chapters.enum.length := by simpa using hi
    have := List.getElem_mem (l := chapters.enum.map (fun p => chapterJsonErrors p.1 p.2))
      (n := i) (by simpa using hi)
    simpa using this
  exact chapterJsonErrors_nil_number (h2 _ hmem)

/-- C5: the structural outline validator accepts a parsed outline only when
it has exactly 15 chapters and the chapter at each 1-based position `i+1`
carries `number = i+1`; a different chapter count, or any chapter whose
number differs from its position, yields a non-empty error list, so the
outline is rejected before being wrapped into a `BookOutline`. -/
theorem outline_exactly_15_sequentially_numbered (chapters : List ChapterJson) :
    (validate_outline_json ⟨some chapters⟩ = [] →
       chapters.length = 15 ∧
       ∀ i (hi : i < chapters.length),
         (chapters.get ⟨i, hi⟩).number = some ((i : Int) + 1)) ∧
    (chapters.length ≠ 15 → validate_outline_json ⟨some chapters⟩ ≠ []) ∧
    (∀ i (hi : i < chapters.length) (n : Int),
       (chapters.get ⟨i, hi⟩).number = some n → n ≠ (i : Int) + 1 →
       validate_outline_json ⟨some chapters⟩ ≠ []) := by
  refine ⟨fun h => validate_outline_json_nil h, ?_, ?_⟩
  · intro hne h
    exact hne (validate_outline_json_nil h).1
  · intro i hi n hn hne h
    have := (validate_outline_json_nil h).2 i hi
    rw [hn] at this
    exact hne (Option.some_injective _ this)

/-- C9: `get_book_status` never serves a record across owners.  A response
served from the in-memory map carries a record whose `user_id` equals the
authenticated caller's id, or (for an unauthenticated caller) whose
`anonymous_user_id` equals the caller's non-empty anonymous id; a response
served from the durable-store fallback additionally requires `user_id IS
NULL` on the anonymous path.  A caller with neither identifier is answered
400 before any lookup, so an empty anonymous identifier never matches. -/
theorem get_status_never_crosses_owner (mem : Option StatusEntry)
    (dbBook : Option DbBook) (dbError : Bool) (uid aq : Option String) :
    (∀ r body, get_book_status mem dbBook dbError uid aq = .okMem r body →
       (truthy uid = true ∧ r.user_id = uid) ∨
       (truthy uid = false ∧ truthy aq = true ∧ r.anonymous_user_id = aq)) ∧
    (∀ b body, get_book_status mem dbBook dbError uid aq = .okDb b body →
       (truthy uid = true ∧ b.user_id = uid) ∨
       (truthy uid = false ∧ truthy aq = true ∧ b.anonymous_user_id = aq ∧
         b.user_id = none)) := by
  unfold get_book_status get_book_by_id_and_owner
  by_cases hu : truthy uid <;> by_cases ha : truthy aq <;>
    rcases mem with _ | st <;> rcases dbBook with _ | b <;> rcases dbError <;>
      constructor <;> intro r body h <;> simp [hu, ha] at h <;>
        split_ifs at h <;> simp_all

/-- When no per-chapter generation fails, the accumulated chapter list has
one entry per outline chapter. -/
lemma successfulChapters_length (gen : Nat → Except String Chapter) :
    ∀ n, failedChapters gen n = [] → (successfulChapters gen n).length = n := by
  intro n
  induction n with
  | zero => intro _; rfl
  | succ n ih =>
    intro h
    unfold failedChapters at h
    rw [List.range_succ, List.filterMap_append] at h
    rcases List.append_eq_nil.mp h with ⟨h1, h2⟩
    have hok : ∃ c, gen n = Except.ok c := by
      rcases hg : gen n with e | c
      · simp [hg] at h2
      · exact ⟨c, rfl⟩
    rcases hok with ⟨c, hg⟩
    have ihl := ih h1
    unfold successfulChapters at ihl ⊢
    rw [List.range_succ, List.filterMap_append, List.length_append, ihl]
    simp [hg, Except.toOption]

/-- C10: `generate_all_chapters` on a 15-chapter outline attempts every
chapter: a per-chapter failure does not stop the loop, every failure is
accumulated into `failed_chapters`, a single error enumerating all of them is
raised only after the loop, and the call returns a chapter list — of length
exactly 15 — precisely when no chapter failed. -/
theorem generate_all_chapters_attempts_all (outline : BookOutline)
    (gen : Nat → Except String Chapter) (h15 : outline.chapters.length = 15) :
    (∀ l, generate_all_chapters outline gen = .ok l →
       failedChapters gen 15 = [] ∧ l.length = 15) ∧
    (failedChapters gen 15 = [] →
       generate_all_chapters outline gen = .ok (successfulChapters gen 15)) ∧
    (failedChapters gen 15 ≠ [] →
       generate_all_chapters outline gen =
         .error (chapterFailureMessage (failedChapters gen 15))) ∧
    (∀ i, i < 15 → ∀ e, gen i = .error e → (i + 1, e) ∈ failedChapters gen 15) := by
  have hne : ¬ outline.chapters = [] := by
    intro he
    rw [he] at h15
    simp at h15
  have hgen : generate_all_chapters outline gen =
      (if failedChapters gen 15 ≠ [] then
        .error (chapterFailureMessage (failedChapters gen 15))
      else .ok (successfulChapters gen 15)) := by
    unfold generate_all_chapters
    rw [if_neg hne, h15, if_neg (by norm_num)]
  refine ⟨?_, ?_, ?_, ?_⟩
  · intro l hl
    rw [hgen] at hl
    by_cases hf : failedChapters gen 15 = []
    · rw [if_neg (not_not.mpr hf)] at hl
      have : l = successfulChapters gen 15 := by
        injection hl with h'
        exact h'.symm
      rw [this]
      exact ⟨hf, successfulChapters_length gen 15 hf⟩
    · rw [if_pos hf] at hl
      exact absurd hl (by simp)
  · intro hf
    rw [hgen, if_neg (not_not.mpr hf)]
  · intro hf
    rw [hgen, if_pos hf]
  · intro i hi e hgi
    unfold failedChapters
    rw [List.mem_filterMap]
    exact ⟨i, List.mem_range.mpr hi, by rw [hgi]⟩

/-- Witness for C10: a generator that succeeds on every chapter makes
`generate_all_chapters` return the accumulated list. -/
theorem generate_all_chapters_attempts_all_witness :
    failedChapters sampleGen 15 = [] ∧
    generate_all_chapters sampleOutline sampleGen =
      .ok (successfulChapters sampleGen 15) :=
  ⟨rfl,
   (generate_all_chapters_attempts_all sampleOutline sampleGen (by decide)).2.1 rfl⟩

end BookMonarch
